import Mathlib

/-!
# Verification of the credential and authorization subsystem

A shallow embedding, in Lean 4, of the credential and authorization core of
the gacha-daily-tracker REST backend: the user store rows, the role policy,
the auth middleware (`requireAdmin`, `authenticateToken`), and the account
operations (register, login, update-password, update-email, update-role).

The embedding mirrors the TypeScript route handlers statement by statement.
The relational store is a `List UserRow`; SQL statements become `List`
operations (`find?`, `map`, `any`); HTTP responses become explicit result
structures carrying the status code, the error string, the resulting store
and a trace of the store operations performed before the response was sent.

External collaborators (the `bcryptjs`, `jsonwebtoken`, `crypto` and
`validator` libraries, and the timezone lookup service) are modelled:
hashing is an injective tag (the claims under study depend only on
equality of hashes, never on their bit patterns), JWT verification is a
function parameter `String → JwtResult` standing for `jwt.verify` with its
three observable outcomes, and the timezone service is a parameter record
exposing `isValid`/`normalize` as the spec's collaborator interface does.
-/

namespace GachaTracker

/-- A row of the `users` table (schema: `CREATE TABLE users ...`).
Timestamps are abstract ticks (`Nat`); `id` is the serial primary key. -/
structure UserRow where
  id : Nat
  username : String
  email : String
  password_hash : String
  timezone : String
  first_name : Option String
  last_name : Option String
  phone : Option String
  role : Nat
  created_at : Nat
  updated_at : Nat
deriving Repr, DecidableEq

/-- The user store: the rows of the `users` table, in insertion order. -/
abbrev Store := List UserRow

/-- `ROLES.USER` from `middleware/admin` -/
def ROLES.USER : Nat := 1
/-- `ROLES.PREMIUM` from `middleware/admin` -/
def ROLES.PREMIUM : Nat := 2
/-- `ROLES.ADMIN` from `middleware/admin` -/
def ROLES.ADMIN : Nat := 3
/-- `ROLES.OWNER` from `middleware/admin` -/
def ROLES.OWNER : Nat := 4

/-- `getRoleName` from `middleware/admin`: role number to display name,
`"Unknown"` for any out-of-range value. -/
def getRoleName (role : Nat) : String :=
  if role = 1 then "User"
  else if role = 2 then "Premium User"
  else if role = 3 then "Admin"
  else if role = 4 then "Owner"
  else "Unknown"

/-- `hasMinimumRole` from `middleware/admin`: `userRole >= requiredRole`. -/
def hasMinimumRole (userRole requiredRole : Nat) : Bool :=
  requiredRole ≤ userRole

/-- JavaScript truthiness for an optional string field of a request body:
an absent field and the empty string are both falsy. -/
def truthy : Option String → Option String
  | none => none
  | some s => if s = "" then none else some s

/-- The claims of a signed JWT as issued by the login route:
`{userId, email, username, role}` (`iat`/`exp` live in the verifier). -/
structure JwtClaims where
  userId : Nat
  email : String
  username : String
  role : Nat
deriving Repr, DecidableEq

/-- Modelled collaborator (`jsonwebtoken`): the three observable outcomes of
`jwt.verify` — a decoded payload, a `TokenExpiredError` (whose message
contains `"expired"`), or any other verification error. -/
inductive JwtResult where
  | ok (claims : JwtClaims)
  | expired
  | invalid
deriving Repr, DecidableEq

/-- Modelled collaborator (`crypto`): `addPepper` is
`crypto.createHmac('sha256', PEPPER).update(password).digest('hex')` — a
deterministic keyed transform, modelled as an injective tag since every
claim under study depends only on equality of the derived values. -/
def addPepper (password : String) : String :=
  "hmac-sha256-pepper:" ++ password

/-- Modelled collaborator (`bcryptjs`): `bcrypt.hash(peppered, 16)`,
modelled as an injective tag (the claims depend only on whether
`bcrypt.compare` succeeds, never on the hash bytes or the salt). -/
def bcryptHash (peppered : String) : String :=
  "bcrypt-16:" ++ peppered

/-- Modelled collaborator (`bcryptjs`): `bcrypt.compare(peppered, stored)`. -/
def bcryptCompare (peppered storedHash : String) : Bool :=
  storedHash == bcryptHash peppered

/-- Split a character list at every occurrence of a separator character —
the semantics of JavaScript `String.split` with a single-character
separator. (Defined over `List Char` so that proofs can evaluate it.) -/
def splitOnChar (sep : Char) : List Char → List (List Char)
  | [] => [[]]
  | c :: cs =>
    let rest := splitOnChar sep cs
    if c = sep then [] :: rest
    else
      match rest with
      | r :: rs => (c :: r) :: rs
      | [] => [[c]]

/-- Bearer-token extraction as in `requireAdmin` and the PATCH routes:
`authHeader.startsWith('Bearer ')` then `authHeader.substring(7)`. -/
def bearerToken (authHeader : Option String) : Option String :=
  match authHeader with
  | none => none
  | some h =>
    if h.data.take 7 = "Bearer ".data then some (String.mk (h.data.drop 7))
    else none

/-- Bearer-token extraction as in `authenticateToken`/`optionalAuth`:
`authHeader && authHeader.split(' ')[1]`, with JS truthiness on both the
header and the extracted piece. -/
def splitToken (authHeader : Option String) : Option String :=
  match authHeader with
  | none => none
  | some h =>
    match (splitOnChar ' ' h.data).get? 1 with
    | none => none
    | some t => if t = [] then none else some (String.mk t)

/-- `SELECT id, username, email, role FROM users WHERE id = $1` — first row. -/
def findById (store : Store) (uid : Nat) : Option UserRow :=
  store.find? (fun u => u.id == uid)

/-- Outcome of a gate middleware: an error response, or control passed to
the handler with the decoded user attached to the request. -/
inductive GateResult where
  | reject (status : Nat) (error : String)
  | proceed (user : JwtClaims)
deriving Repr, DecidableEq

/-- `requireAdmin` from `middleware/admin`: JWT verification, then a live
re-read of the user's role from the store, a token-role/store-role
cross-check, and the `role >= ADMIN` gate. On success the request proceeds
with the store's data (not the token's) attached. -/
def requireAdmin (verify : String → JwtResult) (store : Store)
    (authHeader : Option String) : GateResult :=
  match bearerToken authHeader with
  | none => .reject 401 "Admin access required"
  | some token =>
    match verify token with
    | .expired => .reject 401 "Invalid or expired admin token"
    | .invalid => .reject 401 "Invalid or expired admin token"
    | .ok decoded =>
      match findById store decoded.userId with
      | none => .reject 401 "Admin user not found"
      | some user =>
        if decoded.role ≠ user.role then
          .reject 401 "Token invalid. Please login again."
        else if user.role < ROLES.ADMIN then
          .reject 403 "Admin privileges required"
        else
          .proceed { userId := user.id, email := user.email,
                     username := user.username, role := user.role }

/-- Outcome of `authenticateToken`: an error response, or control passed to
the handler with `{userId, email, username}` attached (no role). -/
inductive AuthResult where
  | reject (status : Nat) (error : String)
  | proceed (userId : Nat) (email : String) (username : String)
deriving Repr, DecidableEq

/-- `authenticateToken` from `middleware/auth`: 401 when no token is
present, 401 when verification fails with an error whose message contains
`"expired"`, 403 for every other verification failure, and on success the
decoded identity is attached and the handler runs. -/
def authenticateToken (verify : String → JwtResult)
    (authHeader : Option String) : AuthResult :=
  match splitToken authHeader with
  | none => .reject 401 "Access denied. No token provided."
  | some token =>
    match verify token with
    | .ok d => .proceed d.userId d.email d.username
    | .expired => .reject 401 "Token expired. Please login again."
    | .invalid => .reject 403 "Invalid token."

/-! ## Login (`routes/auth/login.ts`) -/

/-- An effect performed by the login handler before the response is sent,
in order: a store query, a `bcrypt.hash` call, a `bcrypt.compare` call. -/
inductive LoginEff where
  | dbQuery
  | hashCall
  | compareCall
deriving Repr, DecidableEq

/-- Request body of `POST /login`. -/
structure LoginReq where
  email : Option String
  password : Option String
deriving Repr, DecidableEq

/-- The public user fields returned by a successful login. -/
structure LoginUser where
  id : Nat
  username : String
  email : String
  role : Nat
  timezone : String
deriving Repr, DecidableEq

/-- Response of `POST /login` plus the ordered trace of effects that the
handler performed before responding. -/
structure LoginResult where
  status : Nat
  error : Option String
  token : Option JwtClaims
  user : Option LoginUser
  trace : List LoginEff
deriving Repr, DecidableEq

/-- The login handler. `SELECT ... FROM users WHERE email = $1` is the
first matching row; when no row matches, a dummy `bcrypt.hash` call is made
before the 401 response; a present row's hash is checked with
`bcrypt.compare` on the peppered password; on success a JWT embedding the
row's current role is signed and returned. -/
def login (store : Store) (req : LoginReq) : LoginResult :=
  match truthy req.email, truthy req.password with
  | some email, some password =>
    match store.find? (fun u => u.email == email) with
    | none =>
      { status := 401, error := some "Invalid email or password",
        token := none, user := none,
        trace := [.dbQuery, .hashCall] }
    | some user =>
      if bcryptCompare (addPepper password) user.password_hash then
        { status := 200, error := none,
          token := some { userId := user.id, email := user.email,
                          username := user.username, role := user.role },
          user := some { id := user.id, username := user.username,
                         email := user.email, role := user.role,
                         timezone := user.timezone },
          trace := [.dbQuery, .compareCall] }
      else
        { status := 401, error := some "Invalid email or password",
          token := none, user := none,
          trace := [.dbQuery, .compareCall] }
  | _, _ =>
    { status := 400, error := some "Email and password are required",
      token := none, user := none, trace := [] }

/-! ## Registration (`routes/auth/register.ts`) -/

/-- Does the string contain an ASCII lowercase letter (`/[a-z]/`)? -/
def hasLower (s : String) : Bool :=
  s.data.any (fun c => 'a' ≤ c && c ≤ 'z')

/-- Does the string contain an ASCII uppercase letter (`/[A-Z]/`)? -/
def hasUpper (s : String) : Bool :=
  s.data.any (fun c => 'A' ≤ c && c ≤ 'Z')

/-- Does the string contain an ASCII digit (`/[0-9]/`)? -/
def hasDigit (s : String) : Bool :=
  s.data.any (fun c => '0' ≤ c && c ≤ '9')

/-- The fixed punctuation set of the password policy:
`!@#$%^&*(),.?":{}|<>`. -/
def specialChars : String :=
  "!@#$%^&*(),.?\":\x7b\x7d|<>"

/-- Does the string contain a character from the fixed punctuation set? -/
def hasSpecial (s : String) : Bool :=
  s.data.any (fun c => specialChars.data.contains c)

/-- The `missingRequirements` list of the password-strength check: the
messages of the character classes the candidate password lacks, in the
source's order. -/
def passwordMissing (password : String) : List String :=
  (if hasLower password then [] else ["at least one lowercase letter"]) ++
  (if hasUpper password then [] else ["at least one uppercase letter"]) ++
  (if hasDigit password then [] else ["at least one number"]) ++
  (if hasSpecial password then [] else ["at least one special character"])

/-- `/^[a-zA-Z0-9_-]+$/.test(username)` -/
def usernameCharsOk (username : String) : Bool :=
  username ≠ "" && username.data.all (fun c =>
    ('a' ≤ c && c ≤ 'z') || ('A' ≤ c && c ≤ 'Z') ||
    ('0' ≤ c && c ≤ '9') || c = '_' || c = '-')

/-- Modelled collaborator (`validator.isEmail`): exactly one `@`, a
nonempty local part, and a domain containing an inner dot. -/
def isEmail (s : String) : Bool :=
  match splitOnChar '@' s.data with
  | [lp, dom] =>
    lp ≠ [] && dom ≠ [] && dom.contains '.' &&
    dom.head? != some '.' && dom.getLast? != some '.'
  | _ => false

/-- `/^[+]?[1-9][\d\s\-()]{7,18}$/.test(phone)` -/
def phoneOk (phone : String) : Bool :=
  let cs := phone.data
  let cs := match cs with
    | '+' :: rest => rest
    | _ => cs
  match cs with
  | c :: rest =>
    ('1' ≤ c && c ≤ '9') && 7 ≤ rest.length && rest.length ≤ 18 &&
    rest.all (fun d =>
      ('0' ≤ d && d ≤ '9') || d = ' ' || d = '\t' || d = '\n' ||
      d = '-' || d = '(' || d = ')')
  | [] => false

/-- ASCII lowercasing of one character — the effect of JavaScript
`toLowerCase()` on the ASCII range. -/
def asciiLower (c : Char) : Char :=
  if 'A' ≤ c ∧ c ≤ 'Z' then Char.ofNat (c.toNat + 32) else c

/-- Modelled collaborator (`String.prototype.toLowerCase`), on the ASCII
range. -/
def lowerString (s : String) : String :=
  String.mk (s.data.map asciiLower)

/-- Modelled collaborator (Timezone Lookup, spec §6): `isValid` and
`normalize` of `TimezoneService`. -/
structure TzService where
  isValid : String → Bool
  normalize : String → String

/-- `TimezoneService.detectUserTimezone`: the body's timezone if truthy,
else the `x-user-timezone` header if truthy, else the fixed default (the
IP path of the source also returns the fixed default). -/
def detectUserTimezone (tz : TzService) (bodyTz headerTz : Option String) :
    String :=
  match truthy bodyTz with
  | some t => tz.normalize t
  | none =>
    match truthy headerTz with
    | some t => tz.normalize t
    | none => "America/Los_Angeles"

/-- Request body (plus the timezone hint header) of `POST /register`. -/
structure RegisterReq where
  username : Option String
  email : Option String
  password : Option String
  confirmPassword : Option String
  first_name : Option String
  last_name : Option String
  phone : Option String
  registrationToken : Option String
  timezone : Option String
  headerTimezone : Option String
deriving Repr, DecidableEq

/-- The `user` object of the 201 response of `POST /register`. -/
structure RegisterRespUser where
  id : Nat
  username : String
  email : String
  timezone : String
  first_name : Option String
  last_name : Option String
  phone : Option String
  role : Nat
  created_at : Nat
  detected_timezone : Bool
deriving Repr, DecidableEq

/-- The keys of the `user` object in the 201 response of `POST /register`,
verbatim from the response literal of the source. -/
def registerRespUserKeys : List String :=
  ["id", "username", "email", "timezone", "first_name", "last_name",
   "phone", "role", "created_at", "detected_timezone"]

/-- Response of `POST /register`, the resulting store, and the number of
store statements (SELECT/INSERT) executed before responding. -/
structure RegisterResult where
  status : Nat
  error : Option String
  user : Option RegisterRespUser
  store : Store
  queries : Nat
deriving Repr, DecidableEq

/-- `first_name && first_name.length > 100` (and the same for last names):
a provided, truthy optional field exceeding its length bound. -/
def optFieldTooLong (field : Option String) (bound : Nat) : Bool :=
  match truthy field with
  | some f => bound < f.length
  | none => false

/-- `phone && (phone.length > 20 || !pattern.test(phone))`. -/
def phoneBad (field : Option String) : Bool :=
  match truthy field with
  | some p => 20 < p.length || !(phoneOk p)
  | none => false

/-- The tail of the registration handler after all validations have
passed: the existing-user SELECT (`WHERE email = $1 OR username = $2`,
yielding 400 on any row) and otherwise the peppered bcrypt hash and the
INSERT of the new row with `role = 1`, `RETURNING` its public fields. -/
def registerInsert (now nextId : Nat) (store : Store)
    (username email password userTimezone : String) (wasDetected : Bool)
    (req : RegisterReq) : RegisterResult :=
  if store.any (fun u => u.email == email || u.username == username) then
    { status := 400,
      error := some "User with this email or username already exists",
      user := none, store := store, queries := 1 }
  else
    let passwordHash := bcryptHash (addPepper password)
    let row : UserRow :=
      { id := nextId, username := username, email := email,
        password_hash := passwordHash, timezone := userTimezone,
        first_name := truthy req.first_name,
        last_name := truthy req.last_name,
        phone := truthy req.phone, role := 1,
        created_at := now, updated_at := now }
    { status := 201, error := none,
      user := some
        { id := row.id, username := row.username, email := row.email,
          timezone := row.timezone, first_name := row.first_name,
          last_name := row.last_name, phone := row.phone, role := row.role,
          created_at := row.created_at, detected_timezone := wasDetected },
      store := store ++ [row], queries := 2 }

/-- The registration handler, mirroring the source's guard order: the
registration-token gate, required fields, email syntax, password
confirmation, username length and charset, password length and character
classes, optional-field bounds, timezone resolution, the existing-user
SELECT (400 on a match), then the INSERT with `role = 1`. `validTok` is
`process.env.REGISTRATION_TOKEN`; `nextId` is the serial the INSERT
assigns; `now` is `CURRENT_TIMESTAMP`. -/
def register (tz : TzService) (validTok : String) (now nextId : Nat)
    (store : Store) (req : RegisterReq) : RegisterResult :=
  match truthy req.registrationToken with
  | none =>
    { status := 403,
      error := some "Invalid registration token. Registration is restricted.",
      user := none, store := store, queries := 0 }
  | some tok =>
    if tok ≠ validTok then
      { status := 403,
        error := some "Invalid registration token. Registration is restricted.",
        user := none, store := store, queries := 0 }
    else
      match truthy req.username, truthy req.email,
            truthy req.password, truthy req.confirmPassword with
      | some username, some email, some password, some confirmPassword =>
        if !(isEmail email) then
          { status := 400, error := some "Please enter a valid email address",
            user := none, store := store, queries := 0 }
        else if password ≠ confirmPassword then
          { status := 400,
            error := some "Password and password confirmation do not match",
            user := none, store := store, queries := 0 }
        else if username.length < 5 ∨ 50 < username.length then
          { status := 400,
            error := some "Username must be between 5 and 50 characters",
            user := none, store := store, queries := 0 }
        else if !(usernameCharsOk username) then
          { status := 400,
            error := some
              "Username can only contain letters, numbers, underscores, and hyphens",
            user := none, store := store, queries := 0 }
        else if password.length < 15 then
          { status := 400,
            error := some "Password must be at least 15 characters long",
            user := none, store := store, queries := 0 }
        else if 0 < (passwordMissing password).length then
          { status := 400,
            error := some ("Password must contain " ++
              String.intercalate ", " (passwordMissing password)),
            user := none, store := store, queries := 0 }
        else if optFieldTooLong req.first_name 100 then
          { status := 400,
            error := some "First name must be 100 characters or less",
            user := none, store := store, queries := 0 }
        else if optFieldTooLong req.last_name 100 then
          { status := 400,
            error := some "Last name must be 100 characters or less",
            user := none, store := store, queries := 0 }
        else if phoneBad req.phone then
          { status := 400, error := some "Invalid phone number format",
            user := none, store := store, queries := 0 }
        else
          let wasDetected := (truthy req.timezone).isNone
          match truthy req.timezone with
          | some t =>
            if !(tz.isValid t) then
              { status := 400,
                error := some
                  "Invalid timezone. Use /gdt/auth/timezones to see valid options.",
                user := none, store := store, queries := 0 }
            else
              registerInsert now nextId store username email password
                (tz.normalize t) wasDetected req
          | none =>
            registerInsert now nextId store username email password
              (detectUserTimezone tz req.timezone req.headerTimezone)
              wasDetected req
      | _, _, _, _ =>
        { status := 400,
          error := some
            "Username, email, password, password confirmation, and registration token are required",
          user := none, store := store, queries := 0 }

/-! ## Password update (`routes/auth/passwordUpdate.ts`) -/

/-- A store operation performed by the transactional PATCH handlers, in
the order issued: `BEGIN`, the user SELECT, the UPDATE, `COMMIT`,
`ROLLBACK`. (The connection acquisition `database.getClient()` at the top
of the handler is not a statement and is not traced.) -/
inductive DbOp where
  | beginTx
  | selectUser
  | updateRow
  | commitTx
  | rollbackTx
deriving Repr, DecidableEq

/-- Request of `PATCH /update-password`: the bearer header and the body. -/
structure PwReq where
  authHeader : Option String
  identifier : Option String
  currentPassword : Option String
  newPassword : Option String
  confirmNewPassword : Option String
deriving Repr, DecidableEq

/-- Response of `PATCH /update-password`, the resulting store, and the
ordered trace of store statements issued before responding. -/
structure PwResult where
  status : Nat
  error : Option String
  store : Store
  trace : List DbOp
deriving Repr, DecidableEq

/-- The password-update handler: token check, field presence, new-password
confirmation, the new≠current check, the strength policy — all before any
store statement — then inside a transaction the identity-confirming SELECT
(`WHERE id = $1 AND (username = $2 OR email = $2)`), the bcrypt check of
the current password, and the UPDATE of `password_hash` and `updated_at`
(`WHERE id = $2` with the token's userId). -/
def updatePassword (verify : String → JwtResult) (now : Nat) (store : Store)
    (req : PwReq) : PwResult :=
  match bearerToken req.authHeader with
  | none => { status := 401, error := some "No token provided",
              store := store, trace := [] }
  | some token =>
    match verify token with
    | .expired => { status := 401, error := some "Invalid or expired token",
                    store := store, trace := [] }
    | .invalid => { status := 401, error := some "Invalid or expired token",
                    store := store, trace := [] }
    | .ok decoded =>
      match truthy req.identifier, truthy req.currentPassword,
            truthy req.newPassword, truthy req.confirmNewPassword with
      | some identifier, some currentPassword,
        some newPassword, some confirmNewPassword =>
        if newPassword ≠ confirmNewPassword then
          { status := 400,
            error := some "New password and confirmation do not match",
            store := store, trace := [] }
        else if currentPassword = newPassword then
          { status := 400,
            error := some "New password must be different from current password",
            store := store, trace := [] }
        else if newPassword.length < 15 then
          { status := 400,
            error := some "New password must be at least 15 characters long",
            store := store, trace := [] }
        else if 0 < (passwordMissing newPassword).length then
          { status := 400,
            error := some ("New password must contain " ++
              String.intercalate ", " (passwordMissing newPassword)),
            store := store, trace := [] }
        else
          match store.find? (fun u => u.id == decoded.userId &&
              (u.username == identifier || u.email == identifier)) with
          | none =>
            { status := 403,
              error := some "Invalid account identifier or insufficient permissions",
              store := store,
              trace := [.beginTx, .selectUser, .rollbackTx] }
          | some user =>
            if bcryptCompare (addPepper currentPassword) user.password_hash then
              let newHash := bcryptHash (addPepper newPassword)
              { status := 200, error := none,
                store := store.map (fun u =>
                  if u.id == decoded.userId then
                    { u with password_hash := newHash, updated_at := now }
                  else u),
                trace := [.beginTx, .selectUser, .updateRow, .commitTx] }
            else
              { status := 403,
                error := some "Current password is incorrect",
                store := store,
                trace := [.beginTx, .selectUser, .rollbackTx] }
      | _, _, _, _ =>
        { status := 400,
          error := some
            "All fields are required: identifier, currentPassword, newPassword, confirmNewPassword",
          store := store, trace := [] }

/-! ## Email update (`routes/auth/emailUpdate.ts`) -/

/-- Request of `PATCH /update-email`: the bearer header and the body. -/
structure EmailReq where
  authHeader : Option String
  newEmail : Option String
  password : Option String
deriving Repr, DecidableEq

/-- Response of `PATCH /update-email` and the resulting store. -/
structure EmailResult where
  status : Nat
  error : Option String
  store : Store
deriving Repr, DecidableEq

/-- The email-update handler: token check, field presence, email syntax;
then inside a transaction the SELECT of the token-bound row, the
case-insensitive same-as-current check, the bcrypt password check, the
exact-match in-use check (`WHERE email = $1 AND id != $2`, yielding 409 on
a row), and the UPDATE of `email` and `updated_at`. -/
def updateEmail (verify : String → JwtResult) (now : Nat) (store : Store)
    (req : EmailReq) : EmailResult :=
  match bearerToken req.authHeader with
  | none => { status := 401, error := some "No token provided",
              store := store }
  | some token =>
    match verify token with
    | .expired => { status := 401, error := some "Invalid or expired token",
                    store := store }
    | .invalid => { status := 401, error := some "Invalid or expired token",
                    store := store }
    | .ok decoded =>
      match truthy req.newEmail, truthy req.password with
      | some newEmail, some password =>
        if !(isEmail newEmail) then
          { status := 400, error := some "Please enter a valid email address",
            store := store }
        else
          match store.find? (fun u => u.id == decoded.userId) with
          | none => { status := 404, error := some "User not found",
                      store := store }
          | some user =>
            if lowerString user.email = lowerString newEmail then
              { status := 400,
                error := some "New email must be different from current email",
                store := store }
            else if !(bcryptCompare (addPepper password) user.password_hash) then
              { status := 403, error := some "Invalid password",
                store := store }
            else if store.any (fun u => u.email == newEmail &&
                u.id != decoded.userId) then
              { status := 409,
                error := some "Email address is already in use",
                store := store }
            else
              { status := 200, error := none,
                store := store.map (fun u =>
                  if u.id == decoded.userId then
                    { u with email := newEmail, updated_at := now }
                  else u) }
      | _, _ =>
        { status := 400, error := some "New email and password are required",
          store := store }

/-! ## Role update (`routes/admin/roles.ts`, `PATCH /users/role/:username`) -/

/-- Request of the role-update route: the `:username` path parameter and
the body. `newRole` is `Option Nat` — `none` for an absent (or JS-falsy)
field. -/
structure RoleReq where
  username : String
  newRole : Option Nat
  reason : Option String
deriving Repr, DecidableEq

/-- Response of the role-update route and the resulting store. -/
structure RoleResult where
  status : Nat
  error : Option String
  store : Store
deriving Repr, DecidableEq

/-- The role-update handler, which runs behind `requireAdmin`; `adminUser`
is the `req.user` the middleware attached (the store's data for the
actor). Guard order as in the source: `newRole` validity, the owner-only
gates for assigning Owner and Admin, the target SELECT by username, the
owner self-demotion block, the owners-modify-owners block, then the
UPDATE of `role` and `updated_at`. -/
def updateRole (now : Nat) (store : Store) (adminUser : JwtClaims)
    (req : RoleReq) : RoleResult :=
  match req.newRole with
  | none =>
    { status := 400,
      error := some "Invalid role. Must be 1 (User), 2 (Premium), 3 (Admin), or 4 (Owner)",
      store := store }
  | some newRole =>
    if newRole ∉ [1, 2, 3, 4] then
      { status := 400,
        error := some "Invalid role. Must be 1 (User), 2 (Premium), 3 (Admin), or 4 (Owner)",
        store := store }
    else if newRole = ROLES.OWNER ∧ adminUser.role < ROLES.OWNER then
      { status := 403, error := some "Only owners can assign owner role",
        store := store }
    else if newRole = ROLES.ADMIN ∧ adminUser.role < ROLES.OWNER then
      { status := 403, error := some "Only owners can assign admin role",
        store := store }
    else
      match store.find? (fun u => u.username == req.username) with
      | none => { status := 404, error := some "User not found",
                  store := store }
      | some targetUser =>
        if targetUser.id = adminUser.userId ∧ adminUser.role = ROLES.OWNER ∧
            newRole < ROLES.OWNER then
          { status := 403,
            error := some "You cannot demote yourself from owner role",
            store := store }
        else if targetUser.role = ROLES.OWNER ∧ adminUser.role < ROLES.OWNER then
          { status := 403,
            error := some "Only owners can modify other owners",
            store := store }
        else
          { status := 200, error := none,
            store := store.map (fun u =>
              if u.id == targetUser.id then
                { u with role := newRole, updated_at := now }
              else u) }

/-! ## Theorems -/

/-- C1: for every request reaching `requireAdmin` with a token that passes
signature/expiry verification and names an existing user, if the token's
embedded role differs from the role currently stored for that user, the
request is rejected with Unauthorized (401) — not Forbidden. -/
theorem requireAdmin_role_mismatch_unauthorized
    (verify : String → JwtResult) (store : Store) (authHeader : Option String)
    (token : String) (decoded : JwtClaims) (user : UserRow)
    (htok : bearerToken authHeader = some token)
    (hver : verify token = JwtResult.ok decoded)
    (huser : findById store decoded.userId = some user)
    (hrole : decoded.role ≠ user.role) :
    requireAdmin verify store authHeader =
      GateResult.reject 401 "Token invalid. Please login again." := by
  simp only [requireAdmin, htok, hver, huser]
  simp [hrole]

/-- C1 witness: a token issued while the user held rank Admin (3),
presented after the store role was downgraded to User (1), is rejected
with 401. -/
theorem requireAdmin_role_mismatch_unauthorized_witness :
    requireAdmin
      (fun s => if s = "staletok" then
          JwtResult.ok { userId := 1, email := "a@b.com",
                         username := "alice", role := 3 }
        else JwtResult.invalid)
      [{ id := 1, username := "alice", email := "a@b.com",
         password_hash := "h", timezone := "America/Los_Angeles",
         first_name := none, last_name := none, phone := none,
         role := 1, created_at := 0, updated_at := 0 }]
      (some "Bearer staletok") =
      GateResult.reject 401 "Token invalid. Please login again." :=
  requireAdmin_role_mismatch_unauthorized _ _ _ "staletok"
    { userId := 1, email := "a@b.com", username := "alice", role := 3 }
    { id := 1, username := "alice", email := "a@b.com",
      password_hash := "h", timezone := "America/Los_Angeles",
      first_name := none, last_name := none, phone := none,
      role := 1, created_at := 0, updated_at := 0 }
    (by decide) (by decide) (by decide) (by decide)

/-- C7 counterexample: a token that fails verification for a reason other
than expiry (e.g. a bad signature) is rejected by `authenticateToken` with
status 403, not the Unauthorized (401) the claim states. -/
theorem authenticateToken_invalid_signature_403 :
    authenticateToken (fun _ => JwtResult.invalid) (some "Bearer badtoken") =
      AuthResult.reject 403 "Invalid token." := by decide

/-- C7 (amended): for every request to a required-auth protected route, if
no bearer token is present the request is rejected with 401; if the token
is expired it is rejected with 401; if it fails verification for any other
reason (e.g. signature) it is rejected with 403; on success the decoded
identity (userId, email, username) is attached and the handler runs. -/
theorem authenticateToken_required_auth_behavior
    (verify : String → JwtResult) (authHeader : Option String) :
    (splitToken authHeader = none →
      authenticateToken verify authHeader =
        AuthResult.reject 401 "Access denied. No token provided.") ∧
    (∀ token, splitToken authHeader = some token →
      verify token = JwtResult.expired →
      authenticateToken verify authHeader =
        AuthResult.reject 401 "Token expired. Please login again.") ∧
    (∀ token, splitToken authHeader = some token →
      verify token = JwtResult.invalid →
      authenticateToken verify authHeader =
        AuthResult.reject 403 "Invalid token.") ∧
    (∀ token d, splitToken authHeader = some token →
      verify token = JwtResult.ok d →
      authenticateToken verify authHeader =
        AuthResult.proceed d.userId d.email d.username) := by
  refine ⟨?_, ?_, ?_, ?_⟩ <;> intros <;> unfold authenticateToken <;> simp_all

/-- C7 witness: concrete instances of the three relevant cases of the
amended behavior. -/
theorem authenticateToken_required_auth_behavior_witness :
    authenticateToken (fun _ => JwtResult.expired) (some "Bearer t") =
      AuthResult.reject 401 "Token expired. Please login again." ∧
    authenticateToken (fun _ => JwtResult.invalid) (some "Bearer t") =
      AuthResult.reject 403 "Invalid token." ∧
    authenticateToken
      (fun _ => JwtResult.ok { userId := 7, email := "e@x.co",
                               username := "uname", role := 1 })
      (some "Bearer t") = AuthResult.proceed 7 "e@x.co" "uname" :=
  ⟨(authenticateToken_required_auth_behavior _ _).2.1 "t" (by decide) rfl,
   (authenticateToken_required_auth_behavior _ _).2.2.1 "t" (by decide) rfl,
   (authenticateToken_required_auth_behavior _ _).2.2.2 "t"
     { userId := 7, email := "e@x.co", username := "uname", role := 1 }
     (by decide) rfl⟩

/-- C9: a Register request whose body lacks a (truthy) registrationToken,
or whose registrationToken differs from the configured one, returns 403
with zero store statements executed and the store unchanged — so no User
row is ever created by such a request. -/
theorem register_invalid_token_rejected_before_validation
    (tz : TzService) (validTok : String) (now nextId : Nat) (store : Store)
    (req : RegisterReq)
    (hbad : ∀ t, truthy req.registrationToken = some t → t ≠ validTok) :
    (register tz validTok now nextId store req).status = 403 ∧
    (register tz validTok now nextId store req).queries = 0 ∧
    (register tz validTok now nextId store req).store = store := by
  unfold register
  cases h : truthy req.registrationToken with
  | none => simp
  | some t => simp [hbad t h]

/-- C9 witness: a request with the wrong registration token and an invalid
email is still rejected with 403, no queries, store unchanged. -/
theorem register_invalid_token_rejected_before_validation_witness :
    (register ⟨fun _ => false, fun s => s⟩ "your-secret-registration-key"
      0 1 []
      { username := some "abcde", email := some "not-an-email",
        password := some "x", confirmPassword := some "x",
        first_name := none, last_name := none, phone := none,
        registrationToken := some "wrong-token", timezone := none,
        headerTimezone := none }).status = 403 :=
  (register_invalid_token_rejected_before_validation _ _ 0 1 [] _
    (by intro t ht; simp [truthy] at ht; subst ht; decide)).1

/-- C2: an UpdateRole request whose newRole is Admin (3) or Owner (4)
fails with Forbidden (403) and leaves the store unchanged whenever the
actor's rank is below Owner, regardless of the target; when the actor's
rank is Owner and the target exists, absent the self-demotion constraint
the assignment succeeds (200). -/
theorem updateRole_elevated_assignment_owner_gate
    (now : Nat) (store : Store) (adminUser : JwtClaims) (req : RoleReq)
    (newRole : Nat) (hr : req.newRole = some newRole)
    (helev : newRole = ROLES.ADMIN ∨ newRole = ROLES.OWNER) :
    (adminUser.role < ROLES.OWNER →
      (updateRole now store adminUser req).status = 403 ∧
      (updateRole now store adminUser req).store = store) ∧
    (adminUser.role = ROLES.OWNER →
      ∀ targetUser,
        store.find? (fun u => u.username == req.username) = some targetUser →
        ¬(targetUser.id = adminUser.userId ∧ newRole < ROLES.OWNER) →
        (updateRole now store adminUser req).status = 200) := by
  constructor
  · intro hlt
    rcases helev with h | h <;> subst h <;>
      simp_all [updateRole, hr, ROLES.ADMIN, ROLES.OWNER]
  · intro hown targetUser hfind hnself
    rcases helev with h | h <;> subst h <;>
      simp_all [updateRole, hr, hfind, ROLES.ADMIN, ROLES.OWNER]

/-- C2 witness: an Admin (3) actor cannot assign Owner; an Owner (4) actor
assigning Admin to another user succeeds. -/
theorem updateRole_elevated_assignment_owner_gate_witness :
    (updateRole 9
      [{ id := 2, username := "bob", email := "b@b.co",
         password_hash := "h", timezone := "America/Los_Angeles",
         first_name := none, last_name := none, phone := none,
         role := 1, created_at := 0, updated_at := 0 }]
      { userId := 1, email := "a@a.co", username := "alice", role := 3 }
      { username := "bob", newRole := some 4, reason := none }).status = 403 ∧
    (updateRole 9
      [{ id := 2, username := "bob", email := "b@b.co",
         password_hash := "h", timezone := "America/Los_Angeles",
         first_name := none, last_name := none, phone := none,
         role := 1, created_at := 0, updated_at := 0 }]
      { userId := 1, email := "a@a.co", username := "alice", role := 4 }
      { username := "bob", newRole := some 3, reason := none }).status = 200 :=
  ⟨((updateRole_elevated_assignment_owner_gate 9 _ _ _ 4 rfl
      (Or.inr rfl)).1 (by decide)).1,
   (updateRole_elevated_assignment_owner_gate 9 _ _ _ 3 rfl
      (Or.inl rfl)).2 rfl
     { id := 2, username := "bob", email := "b@b.co",
       password_hash := "h", timezone := "America/Los_Angeles",
       first_name := none, last_name := none, phone := none,
       role := 1, created_at := 0, updated_at := 0 }
     (by decide) (by decide)⟩

/-- C3: an Owner actor targeting their own row with a newRole below Owner
is rejected with Forbidden (403) and the store (hence the actor's role) is
unchanged. -/
theorem updateRole_owner_self_demotion_forbidden
    (now : Nat) (store : Store) (adminUser : JwtClaims) (req : RoleReq)
    (newRole : Nat) (targetUser : UserRow)
    (hr : req.newRole = some newRole)
    (hlow : newRole = 1 ∨ newRole = 2 ∨ newRole = 3)
    (hown : adminUser.role = ROLES.OWNER)
    (hfind : store.find? (fun u => u.username == req.username) =
      some targetUser)
    (hself : targetUser.id = adminUser.userId) :
    (updateRole now store adminUser req).status = 403 ∧
    (updateRole now store adminUser req).store = store := by
  rcases hlow with h | h | h <;> subst h <;>
    simp_all [updateRole, hr, hfind, hself, hown, ROLES.ADMIN, ROLES.OWNER]

/-- C3 witness: the Owner "alice" demoting herself to User is rejected
with 403 and her row keeps role 4. -/
theorem updateRole_owner_self_demotion_forbidden_witness :
    (updateRole 9
      [{ id := 1, username := "alice", email := "a@a.co",
         password_hash := "h", timezone := "America/Los_Angeles",
         first_name := none, last_name := none, phone := none,
         role := 4, created_at := 0, updated_at := 0 }]
      { userId := 1, email := "a@a.co", username := "alice", role := 4 }
      { username := "alice", newRole := some 1, reason := none }).status = 403 ∧
    (updateRole 9
      [{ id := 1, username := "alice", email := "a@a.co",
         password_hash := "h", timezone := "America/Los_Angeles",
         first_name := none, last_name := none, phone := none,
         role := 4, created_at := 0, updated_at := 0 }]
      { userId := 1, email := "a@a.co", username := "alice", role := 4 }
      { username := "alice", newRole := some 1, reason := none }).store =
      [{ id := 1, username := "alice", email := "a@a.co",
         password_hash := "h", timezone := "America/Los_Angeles",
         first_name := none, last_name := none, phone := none,
         role := 4, created_at := 0, updated_at := 0 }] :=
  updateRole_owner_self_demotion_forbidden 9 _ _ _ 1
    { id := 1, username := "alice", email := "a@a.co",
      password_hash := "h", timezone := "America/Los_Angeles",
      first_name := none, last_name := none, phone := none,
      role := 4, created_at := 0, updated_at := 0 }
    rfl (Or.inl rfl) rfl (by decide) rfl

/-- C4: the login failure response for a nonexistent email and the failure
response for an existing email with a wrong password are identical — both
401 with exactly "Invalid email or password" and the same (empty) token
and user fields — and in the nonexistent-email case a dummy hash
computation is performed before the response is sent (the trace lists the
effects the handler performs before responding, in order). -/
theorem login_failure_responses_indistinguishable
    (store₁ store₂ : Store) (e₁ p₁ e₂ p₂ : String) (u : UserRow)
    (he₁ : e₁ ≠ "") (hp₁ : p₁ ≠ "") (he₂ : e₂ ≠ "") (hp₂ : p₂ ≠ "")
    (habsent : store₁.find? (fun w => w.email == e₁) = none)
    (hfound : store₂.find? (fun w => w.email == e₂) = some u)
    (hbad : bcryptCompare (addPepper p₂) u.password_hash = false) :
    (login store₁ ⟨some e₁, some p₁⟩).status = 401 ∧
    (login store₁ ⟨some e₁, some p₁⟩).error =
      some "Invalid email or password" ∧
    (login store₂ ⟨some e₂, some p₂⟩).status =
      (login store₁ ⟨some e₁, some p₁⟩).status ∧
    (login store₂ ⟨some e₂, some p₂⟩).error =
      (login store₁ ⟨some e₁, some p₁⟩).error ∧
    (login store₂ ⟨some e₂, some p₂⟩).token =
      (login store₁ ⟨some e₁, some p₁⟩).token ∧
    (login store₂ ⟨some e₂, some p₂⟩).user =
      (login store₁ ⟨some e₁, some p₁⟩).user ∧
    LoginEff.hashCall ∈ (login store₁ ⟨some e₁, some p₁⟩).trace := by
  simp [login, truthy, he₁, hp₁, he₂, hp₂, habsent, hfound, hbad]

/-- C4 witness: a login against a one-user store with a nonexistent email,
and one with the right email but wrong password, both yield 401 with the
same message, and the former performs the dummy hash. -/
theorem login_failure_responses_indistinguishable_witness :
    (login [] ⟨some "ghost@x.co", some "Whatever1!pass"⟩).status = 401 ∧
    (login
      [{ id := 1, username := "alice", email := "a@a.co",
         password_hash := bcryptHash (addPepper "Correct1!passw"),
         timezone := "America/Los_Angeles", first_name := none,
         last_name := none, phone := none, role := 1,
         created_at := 0, updated_at := 0 }]
      ⟨some "a@a.co", some "Wrong1!passwrd"⟩).error =
      some "Invalid email or password" ∧
    LoginEff.hashCall ∈
      (login [] ⟨some "ghost@x.co", some "Whatever1!pass"⟩).trace := by
  have h := login_failure_responses_indistinguishable
    []
    [{ id := 1, username := "alice", email := "a@a.co",
       password_hash := bcryptHash (addPepper "Correct1!passw"),
       timezone := "America/Los_Angeles", first_name := none,
       last_name := none, phone := none, role := 1,
       created_at := 0, updated_at := 0 }]
    "ghost@x.co" "Whatever1!pass" "a@a.co" "Wrong1!passwrd"
    { id := 1, username := "alice", email := "a@a.co",
      password_hash := bcryptHash (addPepper "Correct1!passw"),
      timezone := "America/Los_Angeles", first_name := none,
      last_name := none, phone := none, role := 1,
      created_at := 0, updated_at := 0 }
    (by decide) (by decide) (by decide) (by decide)
    (by decide) (by decide) (by decide)
  exact ⟨h.1, h.2.2.2.1.trans h.2.1, h.2.2.2.2.2.2⟩

/-- C8: an UpdatePassword request carrying a valid bearer token whose
newPassword equals its currentPassword is answered with 400 before any
store statement is issued (empty trace — not even BEGIN) and the store is
unchanged. -/
theorem updatePassword_same_password_rejected_before_store
    (verify : String → JwtResult) (now : Nat) (store : Store) (req : PwReq)
    (token : String) (decoded : JwtClaims)
    (htok : bearerToken req.authHeader = some token)
    (hver : verify token = JwtResult.ok decoded)
    (heq : req.currentPassword = req.newPassword) :
    (updatePassword verify now store req).status = 400 ∧
    (updatePassword verify now store req).trace = [] ∧
    (updatePassword verify now store req).store = store := by
  have h2 : truthy req.currentPassword = truthy req.newPassword := by
    rw [heq]
  simp only [updatePassword, htok, hver]
  rw [h2]
  rcases h1 : truthy req.identifier with _ | idv
  · simp
  rcases h3 : truthy req.newPassword with _ | np
  · simp
  rcases h4 : truthy req.confirmNewPassword with _ | cnp
  · simp
  by_cases hc : np = cnp
  · simp [hc]
  · simp [hc]

/-- C8 witness: a concrete request with newPassword equal to
currentPassword is rejected with 400, an empty trace, and an unchanged
store. -/
theorem updatePassword_same_password_rejected_before_store_witness :
    (updatePassword (fun _ => JwtResult.ok
        { userId := 1, email := "a@a.co", username := "alice", role := 1 })
      9
      [{ id := 1, username := "alice", email := "a@a.co",
         password_hash := bcryptHash (addPepper "Correct1!passw"),
         timezone := "America/Los_Angeles", first_name := none,
         last_name := none, phone := none, role := 1,
         created_at := 0, updated_at := 0 }]
      { authHeader := some "Bearer tok", identifier := some "alice",
        currentPassword := some "Correct1!passw",
        newPassword := some "Correct1!passw",
        confirmNewPassword := some "Correct1!passw" }).trace = [] :=
  (updatePassword_same_password_rejected_before_store _ 9 _ _
    "tok" { userId := 1, email := "a@a.co", username := "alice", role := 1 }
    (by decide) rfl rfl).2.1

/-- C10: a successful UpdatePassword changes at most the `password_hash`
and `updated_at` columns of rows whose id is the token-bound user's id;
every row with a different id is completely unchanged, and row count and
order are preserved. -/
theorem updatePassword_frame_condition
    (verify : String → JwtResult) (now : Nat) (store : Store) (req : PwReq)
    (token : String) (decoded : JwtClaims)
    (htok : bearerToken req.authHeader = some token)
    (hver : verify token = JwtResult.ok decoded)
    (hok : (updatePassword verify now store req).status = 200) :
    (updatePassword verify now store req).store.length = store.length ∧
    ∀ (i : Nat) (u : UserRow), store[i]? = some u →
      ∃ v, (updatePassword verify now store req).store[i]? = some v ∧
        (u.id ≠ decoded.userId → v = u) ∧
        v.id = u.id ∧ v.username = u.username ∧ v.email = u.email ∧
        v.role = u.role ∧ v.timezone = u.timezone ∧
        v.first_name = u.first_name ∧ v.last_name = u.last_name ∧
        v.phone = u.phone ∧ v.created_at = u.created_at := by
  have key : (updatePassword verify now store req).store = store ∨
      ∃ nh, (updatePassword verify now store req).store =
        store.map (fun u =>
          if u.id == decoded.userId then
            { u with password_hash := nh, updated_at := now }
          else u) := by
    simp only [updatePassword, htok, hver]
    rcases truthy req.identifier with _ | idv <;>
      rcases truthy req.currentPassword with _ | cur <;>
      rcases truthy req.newPassword with _ | np <;>
      rcases truthy req.confirmNewPassword with _ | cnp <;>
      try exact Or.inl rfl
    repeat' split
    all_goals
      first
        | exact Or.inl rfl
        | exact Or.inr ⟨_, rfl⟩
  rcases key with hkey | ⟨nh, hkey⟩
  · refine ⟨by rw [hkey], fun i u hu => ⟨u, by rw [hkey, hu], fun _ => rfl,
      rfl, rfl, rfl, rfl, rfl, rfl, rfl, rfl, rfl⟩⟩
  · refine ⟨by rw [hkey, List.length_map], fun i u hu => ?_⟩
    refine ⟨if u.id == decoded.userId then
        { u with password_hash := nh, updated_at := now } else u,
      by rw [hkey, List.getElem?_map, hu]; rfl, ?_, ?_⟩
    · intro hne
      simp [hne]
    · by_cases h : u.id = decoded.userId <;> simp [h]

/-- C10 witness: after Alice's successful password update in a two-user
store, Bob's row (a different id) is byte-for-byte unchanged. -/
theorem updatePassword_frame_condition_witness :
    (updatePassword
      (fun s => if s = "tok" then JwtResult.ok
          { userId := 1, email := "a@a.co", username := "alice", role := 1 }
        else JwtResult.invalid)
      9
      [{ id := 1, username := "alice", email := "a@a.co",
         password_hash := bcryptHash (addPepper "Correct1!passw"),
         timezone := "America/Los_Angeles", first_name := none,
         last_name := none, phone := none, role := 1,
         created_at := 0, updated_at := 0 },
       { id := 2, username := "bob", email := "b@b.co",
         password_hash := bcryptHash (addPepper "BobSecret1!pass"),
         timezone := "Asia/Tokyo", first_name := some "Bob",
         last_name := none, phone := none, role := 2,
         created_at := 3, updated_at := 3 }]
      { authHeader := some "Bearer tok", identifier := some "alice",
        currentPassword := some "Correct1!passw",
        newPassword := some "NewSecure1!pass",
        confirmNewPassword := some "NewSecure1!pass" }).store[1]? =
      some { id := 2, username := "bob", email := "b@b.co",
             password_hash := bcryptHash (addPepper "BobSecret1!pass"),
             timezone := "Asia/Tokyo", first_name := some "Bob",
             last_name := none, phone := none, role := 2,
             created_at := 3, updated_at := 3 } := by
  have h := updatePassword_frame_condition
    (fun s => if s = "tok" then JwtResult.ok
        { userId := 1, email := "a@a.co", username := "alice", role := 1 }
      else JwtResult.invalid)
    9
    [{ id := 1, username := "alice", email := "a@a.co",
       password_hash := bcryptHash (addPepper "Correct1!passw"),
       timezone := "America/Los_Angeles", first_name := none,
       last_name := none, phone := none, role := 1,
       created_at := 0, updated_at := 0 },
     { id := 2, username := "bob", email := "b@b.co",
       password_hash := bcryptHash (addPepper "BobSecret1!pass"),
       timezone := "Asia/Tokyo", first_name := some "Bob",
       last_name := none, phone := none, role := 2,
       created_at := 3, updated_at := 3 }]
    { authHeader := some "Bearer tok", identifier := some "alice",
      currentPassword := some "Correct1!passw",
      newPassword := some "NewSecure1!pass",
      confirmNewPassword := some "NewSecure1!pass" }
    "tok" { userId := 1, email := "a@a.co", username := "alice", role := 1 }
    (by decide) rfl (by decide)
  obtain ⟨v, hv, hframe, -⟩ := h.2 1
    { id := 2, username := "bob", email := "b@b.co",
      password_hash := bcryptHash (addPepper "BobSecret1!pass"),
      timezone := "Asia/Tokyo", first_name := some "Bob",
      last_name := none, phone := none, role := 2,
      created_at := 3, updated_at := 3 } rfl
  rw [hv, hframe (by decide)]

/-- C6 counterexample: scenario A exactly as claimed — the stated fields
and no others, in particular no `registrationToken` — is rejected by the
register route with 403 (the registration-token gate), not the claimed
201, even against an empty store. -/
theorem register_scenarioA_missing_token_403 :
    (register ⟨fun _ => false, fun s => s⟩ "your-secret-registration-key"
      5 1 []
      { username := some "abcde", email := some "a@b.com",
        password := some "Aa1!aaaaaaaaaaa",
        confirmPassword := some "Aa1!aaaaaaaaaaa",
        first_name := none, last_name := none, phone := none,
        registrationToken := none, timezone := none,
        headerTimezone := none }).status = 403 := by decide

/-- C6 (amended): Register with username "abcde", email "a@b.com",
password and confirmPassword "Aa1!aaaaaaaaaaa", plus the server's
registration token, against a store with no user holding that username or
email, returns 201 with a user object whose role is 1 and whose key set
does not include password_hash. -/
theorem register_scenarioA_with_token_201
    (tz : TzService) (vt : String) (hvt : vt ≠ "")
    (now nextId : Nat) (store : Store)
    (hdup : store.any (fun u =>
      u.email == "a@b.com" || u.username == "abcde") = false) :
    (register tz vt now nextId store
      { username := some "abcde", email := some "a@b.com",
        password := some "Aa1!aaaaaaaaaaa",
        confirmPassword := some "Aa1!aaaaaaaaaaa",
        first_name := none, last_name := none, phone := none,
        registrationToken := some vt, timezone := none,
        headerTimezone := none }).status = 201 ∧
    ((register tz vt now nextId store
      { username := some "abcde", email := some "a@b.com",
        password := some "Aa1!aaaaaaaaaaa",
        confirmPassword := some "Aa1!aaaaaaaaaaa",
        first_name := none, last_name := none, phone := none,
        registrationToken := some vt, timezone := none,
        headerTimezone := none }).user).map RegisterRespUser.role =
      some 1 ∧
    "password_hash" ∉ registerRespUserKeys := by
  have he : isEmail "a@b.com" = true := by decide
  have hu : usernameCharsOk "abcde" = true := by decide
  have hl : ¬("abcde".length < 5 ∨ 50 < "abcde".length) := by decide
  have hp : ¬("Aa1!aaaaaaaaaaa".length < 15) := by decide
  have hm : passwordMissing "Aa1!aaaaaaaaaaa" = [] := by decide
  have t1 : truthy (some "abcde") = some "abcde" := by decide
  have t2 : truthy (some "a@b.com") = some "a@b.com" := by decide
  have t3 : truthy (some "Aa1!aaaaaaaaaaa") = some "Aa1!aaaaaaaaaaa" := by
    decide
  have tv : truthy (some vt) = some vt := by simp [truthy, hvt]
  have t0 : truthy (none : Option String) = none := rfl
  refine ⟨?_, ?_, by decide⟩ <;>
    simp [register, registerInsert, tv, t0, t1, t2, t3, he, hu, hl, hp, hm,
      hdup, optFieldTooLong, phoneBad, detectUserTimezone]

/-- C6 witness: the amended scenario at a concrete registration token and
the empty store returns 201. -/
theorem register_scenarioA_with_token_201_witness :
    (register ⟨fun _ => false, fun s => s⟩ "tok" 5 1 []
      { username := some "abcde", email := some "a@b.com",
        password := some "Aa1!aaaaaaaaaaa",
        confirmPassword := some "Aa1!aaaaaaaaaaa",
        first_name := none, last_name := none, phone := none,
        registrationToken := some "tok", timezone := none,
        headerTimezone := none }).status = 201 :=
  (register_scenarioA_with_token_201 ⟨fun _ => false, fun s => s⟩ "tok"
    (by decide) 5 1 [] rfl).1

/-- C5 counterexample: registering "A@B.COM" while "a@b.com" exists is a
duplicate under the claim's case-insensitive comparison, yet the route
succeeds with 201 and inserts a second row — the duplicate checks compare
emails exactly, not case-insensitively. -/
theorem register_ignores_email_case_duplicate :
    lowerString "A@B.COM" = lowerString "a@b.com" ∧
    (register ⟨fun _ => false, fun s => s⟩ "tok" 5 2
      [{ id := 1, username := "userone", email := "a@b.com",
         password_hash := "h", timezone := "America/Los_Angeles",
         first_name := none, last_name := none, phone := none,
         role := 1, created_at := 0, updated_at := 0 }]
      { username := some "usertwo", email := some "A@B.COM",
        password := some "Aa1!aaaaaaaaaaa",
        confirmPassword := some "Aa1!aaaaaaaaaaa",
        first_name := none, last_name := none, phone := none,
        registrationToken := some "tok", timezone := none,
        headerTimezone := none }).status = 201 ∧
    (register ⟨fun _ => false, fun s => s⟩ "tok" 5 2
      [{ id := 1, username := "userone", email := "a@b.com",
         password_hash := "h", timezone := "America/Los_Angeles",
         first_name := none, last_name := none, phone := none,
         role := 1, created_at := 0, updated_at := 0 }]
      { username := some "usertwo", email := some "A@B.COM",
        password := some "Aa1!aaaaaaaaaaa",
        confirmPassword := some "Aa1!aaaaaaaaaaa",
        first_name := none, last_name := none, phone := none,
        registrationToken := some "tok", timezone := none,
        headerTimezone := none }).store.length = 2 := by decide

set_option maxHeartbeats 1600000 in
/-- C5 (amended): username and email uniqueness under exact (not
case-insensitive) comparison is preserved: a Register whose (truthy)
username or email exactly matches an existing row never succeeds and
leaves the store unchanged, and when such a request passes every prior
validation it is answered with the 400 conflict response; an UpdateEmail
whose newEmail exactly matches another user's email never succeeds and
leaves the store unchanged, and when it passes every prior check it is
answered with 409 Conflict. No operation silently overwrites a row. -/
theorem uniqueness_exact_match_preserved :
    (∀ (tz : TzService) (vt : String) (now nextId : Nat) (store : Store)
       (req : RegisterReq) (username email : String),
       truthy req.username = some username →
       truthy req.email = some email →
       store.any (fun u => u.email == email || u.username == username) =
         true →
       (register tz vt now nextId store req).store = store ∧
       (register tz vt now nextId store req).status ≠ 201) ∧
    (∀ (tz : TzService) (vt : String) (now nextId : Nat) (store : Store)
       (req : RegisterReq) (username email password : String),
       truthy req.registrationToken = some vt →
       truthy req.username = some username →
       truthy req.email = some email →
       truthy req.password = some password →
       truthy req.confirmPassword = some password →
       isEmail email = true →
       ¬(username.length < 5 ∨ 50 < username.length) →
       usernameCharsOk username = true →
       ¬(password.length < 15) →
       passwordMissing password = [] →
       optFieldTooLong req.first_name 100 = false →
       optFieldTooLong req.last_name 100 = false →
       phoneBad req.phone = false →
       (∀ t, truthy req.timezone = some t → tz.isValid t = true) →
       store.any (fun u => u.email == email || u.username == username) =
         true →
       (register tz vt now nextId store req).status = 400 ∧
       (register tz vt now nextId store req).error =
         some "User with this email or username already exists" ∧
       (register tz vt now nextId store req).store = store) ∧
    (∀ (verify : String → JwtResult) (now : Nat) (store : Store)
       (req : EmailReq) (token : String) (decoded : JwtClaims)
       (newEmail : String),
       bearerToken req.authHeader = some token →
       verify token = JwtResult.ok decoded →
       truthy req.newEmail = some newEmail →
       store.any (fun u => u.email == newEmail && u.id != decoded.userId) =
         true →
       (updateEmail verify now store req).store = store ∧
       (updateEmail verify now store req).status ≠ 200) ∧
    (∀ (verify : String → JwtResult) (now : Nat) (store : Store)
       (req : EmailReq) (token : String) (decoded : JwtClaims)
       (newEmail password : String) (user : UserRow),
       bearerToken req.authHeader = some token →
       verify token = JwtResult.ok decoded →
       truthy req.newEmail = some newEmail →
       truthy req.password = some password →
       isEmail newEmail = true →
       store.find? (fun u => u.id == decoded.userId) = some user →
       lowerString user.email ≠ lowerString newEmail →
       bcryptCompare (addPepper password) user.password_hash = true →
       store.any (fun u => u.email == newEmail && u.id != decoded.userId) =
         true →
       (updateEmail verify now store req).status = 409 ∧
       (updateEmail verify now store req).store = store) := by
  refine ⟨?_, ?_, ?_, ?_⟩
  · intro tz vt now nextId store req username email hun hem hdup
    simp only [register, registerInsert]
    rw [hun, hem]
    rcases truthy req.registrationToken with _ | tok
    · exact ⟨rfl, by simp⟩
    by_cases hv : tok = vt
    case neg => simp [hv]
    subst hv
    rcases truthy req.password with _ | pw
    · simp
    rcases truthy req.confirmPassword with _ | cpw
    · simp
    simp only [ne_self_iff_false, if_false]
    repeat' split
    all_goals exact ⟨rfl, by simp⟩
  · intro tz vt now nextId store req username email password h0 hun hem
      hpw hcp hie hulen huch hplen hmiss hfn hln hph htz hdup
    simp only [register, registerInsert]
    rw [h0]
    rcases ht : truthy req.timezone with _ | t
    · simp [hun, hem, hpw, hcp, hie, hulen, huch, hplen, hmiss, hfn, hln,
        hph, hdup, ht]
    · simp [hun, hem, hpw, hcp, hie, hulen, huch, hplen, hmiss, hfn, hln,
        hph, hdup, ht, htz t ht]
  · intro verify now store req token decoded newEmail htok hver hne hdup
    rcases hp : truthy req.password with _ | pw
    · simp [updateEmail, htok, hver, hne, hp]
    simp only [updateEmail, htok, hver, hne, hp]
    repeat' split
    all_goals exact ⟨rfl, by simp⟩
  · intro verify now store req token decoded newEmail password user htok
      hver hne hp hie hfind hdiff hpwok hdup
    simp only [updateEmail, htok, hver, hne, hp]
    simp [hie, hfind, hdiff, hpwok, hdup]

/-- C5 witness: concrete exercises of all four parts against a two-user
store — a Register duplicating an existing email exactly leaves the store
unchanged and, when otherwise fully valid, is answered 400; an UpdateEmail
to another user's exact email leaves the store unchanged and, when all
prior checks pass, is answered 409. -/
theorem uniqueness_exact_match_preserved_witness :
    (register ⟨fun _ => false, fun s => s⟩ "tok" 0 3
      [{ id := 1, username := "userone", email := "a@b.com",
         password_hash := "h", timezone := "America/Los_Angeles",
         first_name := none, last_name := none, phone := none,
         role := 1, created_at := 0, updated_at := 0 },
       { id := 2, username := "bobby", email := "b@b.co",
         password_hash := bcryptHash (addPepper "BobSecret1!pass"),
         timezone := "Asia/Tokyo", first_name := none, last_name := none,
         phone := none, role := 1, created_at := 0, updated_at := 0 }]
      { username := some "newname1", email := some "a@b.com",
        password := some "Aa1!aaaaaaaaaaa",
        confirmPassword := some "Aa1!aaaaaaaaaaa",
        first_name := none, last_name := none, phone := none,
        registrationToken := some "tok", timezone := none,
        headerTimezone := none }).store =
      [{ id := 1, username := "userone", email := "a@b.com",
         password_hash := "h", timezone := "America/Los_Angeles",
         first_name := none, last_name := none, phone := none,
         role := 1, created_at := 0, updated_at := 0 },
       { id := 2, username := "bobby", email := "b@b.co",
         password_hash := bcryptHash (addPepper "BobSecret1!pass"),
         timezone := "Asia/Tokyo", first_name := none, last_name := none,
         phone := none, role := 1, created_at := 0, updated_at := 0 }] ∧
    (register ⟨fun _ => false, fun s => s⟩ "tok" 0 3
      [{ id := 1, username := "userone", email := "a@b.com",
         password_hash := "h", timezone := "America/Los_Angeles",
         first_name := none, last_name := none, phone := none,
         role := 1, created_at := 0, updated_at := 0 },
       { id := 2, username := "bobby", email := "b@b.co",
         password_hash := bcryptHash (addPepper "BobSecret1!pass"),
         timezone := "Asia/Tokyo", first_name := none, last_name := none,
         phone := none, role := 1, created_at := 0, updated_at := 0 }]
      { username := some "newname1", email := some "a@b.com",
        password := some "Aa1!aaaaaaaaaaa",
        confirmPassword := some "Aa1!aaaaaaaaaaa",
        first_name := none, last_name := none, phone := none,
        registrationToken := some "tok", timezone := none,
        headerTimezone := none }).status = 400 ∧
    (updateEmail
      (fun s => if s = "tok" then JwtResult.ok
          { userId := 2, email := "b@b.co", username := "bobby", role := 1 }
        else JwtResult.invalid) 9
      [{ id := 1, username := "userone", email := "a@b.com",
         password_hash := "h", timezone := "America/Los_Angeles",
         first_name := none, last_name := none, phone := none,
         role := 1, created_at := 0, updated_at := 0 },
       { id := 2, username := "bobby", email := "b@b.co",
         password_hash := bcryptHash (addPepper "BobSecret1!pass"),
         timezone := "Asia/Tokyo", first_name := none, last_name := none,
         phone := none, role := 1, created_at := 0, updated_at := 0 }]
      { authHeader := some "Bearer tok", newEmail := some "a@b.com",
        password := some "BobSecret1!pass" }).store =
      [{ id := 1, username := "userone", email := "a@b.com",
         password_hash := "h", timezone := "America/Los_Angeles",
         first_name := none, last_name := none, phone := none,
         role := 1, created_at := 0, updated_at := 0 },
       { id := 2, username := "bobby", email := "b@b.co",
         password_hash := bcryptHash (addPepper "BobSecret1!pass"),
         timezone := "Asia/Tokyo", first_name := none, last_name := none,
         phone := none, role := 1, created_at := 0, updated_at := 0 }] ∧
    (updateEmail
      (fun s => if s = "tok" then JwtResult.ok
          { userId := 2, email := "b@b.co", username := "bobby", role := 1 }
        else JwtResult.invalid) 9
      [{ id := 1, username := "userone", email := "a@b.com",
         password_hash := "h", timezone := "America/Los_Angeles",
         first_name := none, last_name := none, phone := none,
         role := 1, created_at := 0, updated_at := 0 },
       { id := 2, username := "bobby", email := "b@b.co",
         password_hash := bcryptHash (addPepper "BobSecret1!pass"),
         timezone := "Asia/Tokyo", first_name := none, last_name := none,
         phone := none, role := 1, created_at := 0, updated_at := 0 }]
      { authHeader := some "Bearer tok", newEmail := some "a@b.com",
        password := some "BobSecret1!pass" }).status = 409 := by
  refine ⟨?_, ?_, ?_, ?_⟩
  · exact (uniqueness_exact_match_preserved.1 _ "tok" 0 3 _ _
      "newname1" "a@b.com" (by decide) (by decide) (by decide)).1
  · exact (uniqueness_exact_match_preserved.2.1 _ "tok" 0 3 _ _
      "newname1" "a@b.com" "Aa1!aaaaaaaaaaa" (by decide) (by decide)
      (by decide) (by decide) (by decide) (by decide) (by decide)
      (by decide) (by decide) (by decide) (by decide) (by decide)
      (by decide) (by intro t ht; simp [truthy] at ht) (by decide)).1
  · exact (uniqueness_exact_match_preserved.2.2.1 _ 9 _ _
      "tok" { userId := 2, email := "b@b.co", username := "bobby", role := 1 }
      "a@b.com" (by decide) rfl (by decide) (by decide)).1
  · exact (uniqueness_exact_match_preserved.2.2.2 _ 9 _ _
      "tok" { userId := 2, email := "b@b.co", username := "bobby", role := 1 }
      "a@b.com" "BobSecret1!pass"
      { id := 2, username := "bobby", email := "b@b.co",
        password_hash := bcryptHash (addPepper "BobSecret1!pass"),
        timezone := "Asia/Tokyo", first_name := none, last_name := none,
        phone := none, role := 1, created_at := 0, updated_at := 0 }
      (by decide) rfl (by decide) (by decide) (by decide) (by decide)
      (by decide) (by decide) (by decide)).1

end GachaTracker
